import Mathlib

/-!
Verification development for the Teler voice-conversation gateway backend.

The definitions below are a shallow embedding of the Python sources:
`backend/websocket_handler.py` (class `TelerWebSocketHandler`),
`backend/fastapi_app.py` (the `/flow` and `/webhook` endpoints) and
`teler/flows.py` (`CallFlow.stream`).

Modelling conventions:
* Audio payloads are opaque: a payload is represented by its decoded byte
  length together with an abstract content tag.  Base64 encode/decode is a
  bijection and is elided; concatenating payloads concatenates contents and
  adds lengths.  The handler itself only inspects the length, for the
  duration computation `(len/2)/8` ms — a dyadic rational kept exactly in
  units of one sixteenth of a millisecond (`x16` fields), so that the
  3000 ms accumulation threshold becomes 48000.
* The external services (WebRTC VAD, Sarvam STT/TTS, Claude) are oracles:
  functions supplied as parameters.  An oracle returning `Except.error`
  models the Python call raising an exception; returning a "falsy" value
  (`none`) models the service returning `None`/empty.
* The per-connection state dictionaries of the handler are modelled for a
  single connection (`SessionState`); the handler-level `chunk_counter`
  shared by all connections is modelled separately (`assign_chunk_ids`)
  and also carried in the single-session state.
* `async` suspension points inside a turn are made observable: each step
  reports the intermediate session states at the awaits of STT, LLM and
  TTS (`TurnOut.mids`), and `run` collects every observed state.
* Non-ASCII prompt texts from the source (Devanagari and other scripts)
  are represented by distinct named ASCII constants; no claim depends on
  their exact contents, only on which frames are or are not emitted.
-/

namespace TelerVoice

/-- One entry of `conversation_history`: a dict `{role, content}`. -/
structure Msg where
  role : String
  content : String
deriving DecidableEq, Repr

/-- An opaque audio payload: decoded byte length plus abstract content. -/
structure Audio where
  len : Nat
  tag : String
deriving DecidableEq, Repr

/-- Concatenation of decoded audio payloads (`b''.join` of the bytes). -/
def Audio.app (a b : Audio) : Audio :=
  { len := a.len + b.len, tag := a.tag ++ b.tag }

/-- Fold of `Audio.app` over a list, starting from the empty payload. -/
def join_audio (l : List Audio) : Audio :=
  l.foldr Audio.app { len := 0, tag := "" }

/-- The filler-word list of `_is_meaningful_speech`. -/
def filler_words : List String :=
  ["so", "um", "uh", "hmm", "ah", "er", "well", "and", "the", "but", "oh"]

/-- Python `str.strip()`: remove leading and trailing whitespace.
Implemented over the character list so it evaluates in the kernel. -/
def py_strip (s : String) : String :=
  ⟨((s.data.dropWhile Char.isWhitespace).reverse.dropWhile Char.isWhitespace).reverse⟩

/-- Python `str.lower()` (ASCII case mapping, which covers every
transcript the tests exercise). -/
def py_lower (s : String) : String :=
  ⟨s.data.map Char.toLower⟩

/-- Helper for `py_words`: walk the characters, accumulating the current
word (reversed); whitespace runs end words and produce no empty pieces. -/
def words_aux : List Char → List Char → List String
  | [], acc => if acc = [] then [] else [⟨acc.reverse⟩]
  | c :: rest, acc =>
      if c.isWhitespace then
        if acc = [] then words_aux rest [] else (⟨acc.reverse⟩ : String) :: words_aux rest []
      else words_aux rest (c :: acc)

/-- Python `str.split()` with no arguments: split on whitespace runs,
dropping empty pieces. -/
def py_words (s : String) : List String :=
  words_aux s.data []

/-- `TelerWebSocketHandler._is_meaningful_speech`, line for line:
empty/whitespace-only transcripts, bare filler words, transcripts shorter
than 4 characters and single words shorter than 5 characters are not
meaningful; two or more words, or a single word of length ≥ 5, are. -/
def is_meaningful_speech (transcript : String) : Bool :=
  if py_strip transcript = "" then false
  else
    let cleaned := py_lower (py_strip transcript)
    if filler_words.contains cleaned then false
    else if cleaned.data.length < 4 then false
    else
      let words := py_words cleaned
      if words.length == 1 && (words.headD "").data.length < 5 then false
      else if words.length ≥ 2 || (words.length == 1 && (words.headD "").data.length ≥ 5) then true
      else false

/-- One entry of the per-connection `audio_buffers` list:
`{audio_b64, message_id, timestamp, duration_ms}`; the model keeps the
payload and the stored duration `(len/2)/8` ms, held exactly as
`duration_ms_x16 = 16 * duration_ms = len` (sixteenths of a ms). -/
structure AudioChunk where
  audio : Audio
  duration_ms_x16 : Nat
deriving DecidableEq, Repr

instance : Inhabited AudioChunk := ⟨{ audio := { len := 0, tag := "" }, duration_ms_x16 := 0 }⟩

/-- Build the buffered chunk record for an inbound payload, duration
`(len(audio_data) / 2) / 8` ms as in `_handle_audio_message`
(`16 * ((len/2)/8) = len`). -/
def mk_chunk (a : Audio) : AudioChunk :=
  { audio := a, duration_ms_x16 := a.len }

/-- `sum(chunk.get('duration_ms', 0) for chunk in buffer)`, in sixteenths
of a millisecond. -/
def accumulated_duration_x16 (buf : List AudioChunk) : Nat :=
  (buf.map AudioChunk.duration_ms_x16).sum

/-- `_combine_audio_chunks`: decode every chunk, concatenate, re-encode.
Its internal `struct.unpack('<Nh', data)` raises when the combined byte
length is odd; the surrounding `except` then returns the first chunk
unchanged. -/
def combine_audio_chunks (chunks : List AudioChunk) : Audio :=
  let data := join_audio (chunks.map AudioChunk.audio)
  if data.len % 2 == 0 then data
  else (chunks.headD default).audio

/-- The per-connection slice of the handler state: the entry of
`call_states` plus this connection's `conversation_history`,
`audio_buffers` entry, the handler-level `chunk_counter`, and whether the
`_monitor_silence` task for this connection is alive. -/
structure SessionState where
  status : String
  last_user_speech : Option Int
  last_ai_response : Option Int
  waiting_for_user : Bool
  greeting_sent : Bool
  call_ended : Bool
  silence_warnings : Nat
  max_silence_warnings : Nat
  is_processing : Bool
  current_language : String
  detected_language : Option String
  conversation_history : List Msg
  audio_buffer : List AudioChunk
  chunk_counter : Nat
  monitor_active : Bool
deriving DecidableEq, Repr

/-- The state `TelerWebSocketHandler.connect` installs for a fresh
connection (`chunk_counter` is 1 from `__init__`; no silence task yet). -/
def initial_state : SessionState where
  status := "connected"
  last_user_speech := none
  last_ai_response := none
  waiting_for_user := true
  greeting_sent := false
  call_ended := false
  silence_warnings := 0
  max_silence_warnings := 2
  is_processing := false
  current_language := "hi-IN"
  detected_language := none
  conversation_history := []
  audio_buffer := []
  chunk_counter := 1
  monitor_active := false

/-- An outbound WebSocket frame serialized by the handler. -/
inductive Frame where
  | audio (payload : Audio) (chunk_id : Nat)
  | interrupt (chunk_id : Nat)
  | clear
deriving DecidableEq, Repr

/-- Raw result of `sarvam_service.speech_to_text`: a transcript and an
optional `language` key. -/
structure SttRaw where
  transcript : String
  language : Option String
deriving DecidableEq, Repr

/-- What `_convert_audio_to_text` hands back on success. -/
structure SttOut where
  transcript : String
  language : String
deriving DecidableEq, Repr

/-- The external services the session drives, as oracles.  `Except.error`
models the Python call raising; `none` models a falsy return value. -/
structure Oracles where
  vad_has_speech : Audio → Except Unit Bool
  vad_filter : Audio → Option Audio
  stt : Audio → String → Except Unit (Option SttRaw)
  llm_available : Bool
  llm : List Msg → String → String → Except Unit (Option String)
  pick_fallback : String → String
  tts : String → String → String → Except Unit (Option Audio)
  detect_switch : String → Option String
  detect_text_lang : String → Option String

/-- Effects of one handler step: final state, outbound frames in order,
how many STT / LLM service calls were made, WebSocket closes issued
(code, reason), and the session states observable at the async
suspension points inside the step. -/
structure TurnOut where
  state : SessionState
  frames : List Frame
  stt_calls : Nat
  llm_calls : Nat
  closed : List (Nat × String)
  mids : List SessionState

/-- A step that only (possibly) changes the state. -/
def pure_out (s : SessionState) : TurnOut :=
  { state := s, frames := [], stt_calls := 0, llm_calls := 0, closed := [], mids := [] }

/-- The send pattern shared by every outbound audio path: build
`{type: "audio", audio_b64, chunk_id: self.chunk_counter}` and increment
the counter. -/
def send_audio_frame (s : SessionState) (a : Audio) : SessionState × Frame :=
  ({ s with chunk_counter := s.chunk_counter + 1 }, Frame.audio a s.chunk_counter)

/-- `_get_speaker_for_language`: a lookup table that maps every listed
Indian language tag to "meera", with "meera" as the default. -/
def get_speaker_for_language (language : String) : String :=
  let speaker_map : List (String × String) :=
    [("en-IN", "meera"), ("hi-IN", "meera"), ("bn-IN", "meera"), ("gu-IN", "meera"),
     ("kn-IN", "meera"), ("ml-IN", "meera"), ("mr-IN", "meera"), ("or-IN", "meera"),
     ("pa-IN", "meera"), ("ta-IN", "meera"), ("te-IN", "meera")]
  ((speaker_map.find? (fun kv => kv.1 == language)).map Prod.snd).getD "meera"

/-- English greeting text of `_send_initial_greeting`. -/
def greeting_text_en : String :=
  "Hello! I am here to help you. Please tell me how I can assist you?"

/-- Hindi greeting text of `_send_initial_greeting` (Devanagari literal in
the source, represented opaquely). -/
def greeting_text_hi : String := "namaste-greeting-hi"

/-- English default acknowledgement of `_generate_and_send_ai_response`. -/
def default_ack_en : String := "I understand. Please continue."

/-- Hindi default acknowledgement (Devanagari literal, opaque). -/
def default_ack_hi : String := "samajh-gaya-ack-hi"

/-- Hindi fallback `_generate_ai_response` returns when the Claude call
raises (Devanagari literal, opaque). -/
def fallback_glad_hi : String := "khushi-fallback-hi"

/-- First silence-warning text of `_send_silence_warning` (Devanagari
literal, opaque). -/
def silence_warning_text_1 : String := "kya-aap-wahan-hain-1"

/-- Second silence-warning text (Devanagari literal, opaque). -/
def silence_warning_text_2 : String := "intezaar-warning-2"

/-- Farewell text of `_end_call_gracefully` (Devanagari literal, opaque). -/
def farewell_text : String := "dhanyavaad-farewell"

/-- The per-language confirmation table of
`_send_language_switch_confirmation` (non-English entries opaque). -/
def confirmation_text (new_language : String) : String :=
  let confirmations : List (String × String) :=
    [("en-IN", "I will now speak in English. How can I help you?"),
     ("hi-IN", "confirm-hi"), ("bn-IN", "confirm-bn"), ("gu-IN", "confirm-gu"),
     ("kn-IN", "confirm-kn"), ("ml-IN", "confirm-ml"), ("mr-IN", "confirm-mr"),
     ("or-IN", "confirm-or"), ("pa-IN", "confirm-pa"), ("ta-IN", "confirm-ta"),
     ("te-IN", "confirm-te")]
  ((confirmations.find? (fun kv => kv.1 == new_language)).map Prod.snd).getD
    "I will now speak in English. How can I help you?"

/-- `_convert_audio_to_text`: call Sarvam STT; any exception is caught and
yields `None`; a result whose stripped transcript is non-empty is returned
stripped, with `language` defaulting to the requested one. -/
def convert_audio_to_text (o : Oracles) (audio : Audio) (language : String) : Option SttOut :=
  match o.stt audio language with
  | Except.error _ => none
  | Except.ok none => none
  | Except.ok (some r) =>
      if r.transcript ≠ "" && py_strip r.transcript ≠ "" then
        some { transcript := py_strip r.transcript, language := r.language.getD language }
      else none

/-- `_generate_ai_response`: when Claude is unavailable, a canned reply is
picked for the current language; otherwise the Claude call is made, and if
it raises, the `except` branch reads the last history entry (raising
`IndexError` itself when the history is empty) and returns the Hindi
fallback. Returns the reply (possibly `none` for a falsy Claude result)
plus the number of LLM service calls made. -/
def generate_ai_response (o : Oracles) (hist : List Msg) (lang : String) (user_input : String) :
    Except Unit (Option String) × Nat :=
  if o.llm_available = false then
    (Except.ok (some (o.pick_fallback lang)), 0)
  else
    match o.llm hist user_input lang with
    | Except.ok r => (Except.ok r, 1)
    | Except.error _ =>
        if hist = [] then (Except.error (), 1)
        else (Except.ok (some fallback_glad_hi), 1)

/-- `_generate_and_send_ai_response`: generate the reply (with per-language
default when falsy), append it to the history as `assistant`, synthesize
it, and on success send the frame and set `waiting_for_user := true` and
`last_ai_response`.  Every exception is caught by the enclosing `try`; an
exception after the history append leaves the appended entry in place. -/
def generate_and_send_ai_response (s : SessionState) (o : Oracles) (now : Int)
    (user_input : String) : TurnOut :=
  let lang := s.current_language
  let g := generate_ai_response o s.conversation_history lang user_input
  match g.1 with
  | Except.error _ =>
      { state := s, frames := [], stt_calls := 0, llm_calls := g.2, closed := [], mids := [s] }
  | Except.ok r =>
      let ai_response :=
        if r.getD "" = "" then
          if lang == "en-IN" then default_ack_en else default_ack_hi
        else r.getD ""
      let s1 := { s with conversation_history :=
                    s.conversation_history ++ [{ role := "assistant", content := ai_response }] }
      match o.tts ai_response lang (get_speaker_for_language lang) with
      | Except.error _ =>
          { state := s1, frames := [], stt_calls := 0, llm_calls := g.2, closed := [],
            mids := [s, s1] }
      | Except.ok none =>
          { state := s1, frames := [], stt_calls := 0, llm_calls := g.2, closed := [],
            mids := [s, s1] }
      | Except.ok (some audio) =>
          let p := send_audio_frame s1 audio
          let s2 := { p.1 with waiting_for_user := true, last_ai_response := some now }
          { state := s2, frames := [p.2], stt_calls := 0, llm_calls := g.2, closed := [],
            mids := [s, s1] }

/-- `_send_language_switch_confirmation`: synthesize the confirmation in
the new language and send it, then set `last_ai_response` and
`waiting_for_user := true`; the whole body is inside `try`, so a raising
TTS call leaves the state unchanged. -/
def send_language_switch_confirmation (s : SessionState) (o : Oracles) (now : Int)
    (new_language : String) : SessionState × List Frame :=
  match o.tts (confirmation_text new_language) new_language
        (get_speaker_for_language new_language) with
  | Except.error _ => (s, [])
  | Except.ok none => (s, [])
  | Except.ok (some audio) =>
      let p := send_audio_frame s audio
      ({ p.1 with last_ai_response := some now, waiting_for_user := true }, [p.2])

/-- The auto language-switch of `_process_accumulated_audio`: when a
language is detected from the transcript and differs from the current
one, update `current_language` and `detected_language`. -/
def apply_text_lang_detection (s : SessionState) (dl : Option String) (lang : String) :
    SessionState :=
  match dl with
  | some d =>
      if d ≠ lang then { s with current_language := d, detected_language := some d }
      else s
  | none => s

/-- The tail of `_process_accumulated_audio` for a meaningful transcript
without an explicit switch request: auto-detect the language, record the
user speech (`last_user_speech`, `waiting_for_user := false`,
`silence_warnings := 0`), append the `user` entry, generate and send the
AI response, and restart silence monitoring. -/
def run_user_turn (s2 : SessionState) (o : Oracles) (now : Int) (transcript lang : String) :
    TurnOut :=
  let s3 := apply_text_lang_detection s2 (o.detect_text_lang transcript) lang
  let s4 : SessionState :=
    { s3 with last_user_speech := some now, waiting_for_user := false, silence_warnings := 0 }
  let s5 : SessionState :=
    { s4 with conversation_history :=
        s4.conversation_history ++ [{ role := "user", content := transcript }] }
  let g := generate_and_send_ai_response s5 o now transcript
  { state := { g.state with monitor_active := true }, frames := g.frames, stt_calls := 1,
    llm_calls := g.llm_calls, closed := [], mids := s2 :: g.mids }

/-- `_process_accumulated_audio`: the turn pipeline run under the
processing lock.  Mirrors the source branch for branch; the `finally`
block that resets `is_processing` is applied on every path that set it.
`mids` records the session states at the STT, LLM and TTS awaits. -/
def process_accumulated_audio (s : SessionState) (o : Oracles) (now : Int) : TurnOut :=
  if s.call_ended then pure_out s
  else if s.is_processing then pure_out s
  else
    let s1 : SessionState := { s with is_processing := true }
    let fin : TurnOut → TurnOut := fun t =>
      { t with state := { t.state with is_processing := false } }
    if s1.audio_buffer = [] then fin (pure_out s1)
    else
      let combined := combine_audio_chunks s1.audio_buffer
      let s2 : SessionState := { s1 with audio_buffer := [] }
      match o.vad_has_speech combined with
      | Except.error _ => fin (pure_out s2)
      | Except.ok false => fin (pure_out s2)
      | Except.ok true =>
          let combined2 := match o.vad_filter combined with
            | some f => f
            | none => combined
          let lang := s2.current_language
          match convert_audio_to_text o combined2 lang with
          | none =>
              fin { state := s2, frames := [], stt_calls := 1, llm_calls := 0, closed := [],
                    mids := [s2] }
          | some r =>
              if is_meaningful_speech r.transcript = false then
                fin { state := s2, frames := [], stt_calls := 1, llm_calls := 0, closed := [],
                      mids := [s2] }
              else
                match o.detect_switch r.transcript with
                | some new_lang =>
                    let s3 : SessionState := { s2 with current_language := new_lang }
                    let c := send_language_switch_confirmation s3 o now new_lang
                    fin { state := c.1, frames := c.2, stt_calls := 1, llm_calls := 0,
                          closed := [], mids := [s2, s3] }
                | none => fin (run_user_turn s2 o now r.transcript lang)

/-- `_handle_audio_message`: ignore frames for ended calls and empty
payloads, append the chunk to the buffer, and when the session is waiting
for the user, not processing, and at least 3000 ms have accumulated, run
the pipeline. -/
def handle_audio_message (s : SessionState) (o : Oracles) (a : Audio) (now : Int) : TurnOut :=
  if s.call_ended then pure_out s
  else if a.len == 0 then pure_out s
  else
    let s1 : SessionState := { s with audio_buffer := s.audio_buffer ++ [mk_chunk a] }
    if s1.waiting_for_user && !s1.is_processing then
      if accumulated_duration_x16 s1.audio_buffer ≥ 48000 then
        process_accumulated_audio s1 o now
      else pure_out s1
    else pure_out s1

/-- `_send_initial_greeting`: mark the greeting sent and the session
waiting, synthesize the greeting (the TTS await is not inside a `try`, so
a raise propagates — third component `false`), and on success send the
frame and set `last_ai_response`.  The conversation history is not
touched. -/
def send_initial_greeting (s : SessionState) (o : Oracles) (now : Int) :
    SessionState × List Frame × Bool :=
  if s.greeting_sent || s.call_ended then (s, [], true)
  else
    let s1 : SessionState := { s with greeting_sent := true, waiting_for_user := true }
    let text := if s1.current_language == "en-IN" then greeting_text_en else greeting_text_hi
    match o.tts text s1.current_language (get_speaker_for_language s1.current_language) with
    | Except.error _ => (s1, [], false)
    | Except.ok none => (s1, [], true)
    | Except.ok (some audio) =>
        let p := send_audio_frame s1 audio
        ({ p.1 with last_ai_response := some now }, [p.2], true)

/-- `_handle_start_message`: record the stream as active, send the
greeting after the stabilization sleep, then start `_monitor_silence` —
unless the greeting raised, in which case the exception propagates and
the monitor is never started. -/
def handle_start_message (s : SessionState) (o : Oracles) (now : Int) : TurnOut :=
  let s1 : SessionState := { s with status := "active" }
  let g := send_initial_greeting s1 o now
  if g.2.2 then
    { state := { g.1 with monitor_active := true }, frames := g.2.1, stt_calls := 0,
      llm_calls := 0, closed := [], mids := [s1] }
  else
    { state := g.1, frames := g.2.1, stt_calls := 0, llm_calls := 0, closed := [], mids := [s1] }

/-- `_send_silence_warning`: synthesize the warning (the TTS await is not
inside a `try`, so a raise propagates to the monitor loop) and send it. -/
def send_silence_warning (s : SessionState) (o : Oracles) (warning_number : Nat) :
    Except Unit (SessionState × List Frame) :=
  let text := if warning_number == 1 then silence_warning_text_1 else silence_warning_text_2
  match o.tts text "en-IN" "meera" with
  | Except.error _ => Except.error ()
  | Except.ok none => Except.ok (s, [])
  | Except.ok (some audio) =>
      let p := send_audio_frame s audio
      Except.ok (p.1, [p.2])

/-- `_end_call_gracefully`: mark the call ended, synthesize and send the
farewell (a raising TTS propagates before the close is reached), cancel
the silence timer and close the socket with code 1000 and reason
"Call ended due to inactivity". -/
def end_call_gracefully (s : SessionState) (o : Oracles) : TurnOut :=
  let s1 : SessionState := { s with call_ended := true, status := "ended" }
  match o.tts farewell_text "en-IN" "meera" with
  | Except.error _ => pure_out { s1 with monitor_active := false }
  | Except.ok none =>
      { state := { s1 with monitor_active := false }, frames := [], stt_calls := 0,
        llm_calls := 0, closed := [(1000, "Call ended due to inactivity")], mids := [] }
  | Except.ok (some audio) =>
      let p := send_audio_frame s1 audio
      { state := { p.1 with monitor_active := false }, frames := [p.2], stt_calls := 0,
        llm_calls := 0, closed := [(1000, "Call ended due to inactivity")], mids := [p.1] }

/-- One iteration of the `_monitor_silence` loop body after its 30 s
sleep: stop on ended calls; do nothing while `last_user_speech` is unset;
otherwise, when 30 s have passed since the last user speech, send a
warning while `silence_warnings < max_silence_warnings`, else end the
call.  A raising warning TTS kills the loop without incrementing. -/
def monitor_silence_tick (s : SessionState) (o : Oracles) (now : Int) : TurnOut :=
  if s.call_ended then pure_out { s with monitor_active := false }
  else
    match s.last_user_speech with
    | none => pure_out s
    | some t =>
        if now - t ≥ 30 then
          if s.silence_warnings < s.max_silence_warnings then
            match send_silence_warning s o (s.silence_warnings + 1) with
            | Except.error _ => pure_out { s with monitor_active := false }
            | Except.ok sw =>
                { state := { sw.1 with silence_warnings := s.silence_warnings + 1 },
                  frames := sw.2, stt_calls := 0, llm_calls := 0, closed := [], mids := [] }
          else end_call_gracefully s o
        else pure_out s

/-- External stimuli of one session: the `start` frame, an inbound audio
frame, and a silence-monitor tick, each carrying the current time. -/
inductive Event where
  | start (now : Int)
  | audio (a : Audio) (now : Int)
  | tick (now : Int)

/-- Dispatch of one stimulus, with the `call_ended` pre-check of
`handle_incoming_message`; ticks only happen while the monitor task is
alive. -/
def step (s : SessionState) (o : Oracles) : Event → TurnOut
  | Event.start now => if s.call_ended then pure_out s else handle_start_message s o now
  | Event.audio a now => if s.call_ended then pure_out s else handle_audio_message s o a now
  | Event.tick now => if s.monitor_active then monitor_silence_tick s o now else pure_out s

/-- Accumulated effects of a whole session run: `observed` lists every
session state observable from outside (after each step and at each async
suspension point inside a step). -/
structure RunResult where
  state : SessionState
  frames : List Frame
  stt_calls : Nat
  llm_calls : Nat
  closed : List (Nat × String)
  observed : List SessionState

/-- Fold the steps over an event list. -/
def run_from (o : Oracles) : List Event → RunResult → RunResult
  | [], r => r
  | e :: rest, r =>
      let t := step r.state o e
      run_from o rest
        { state := t.state
          frames := r.frames ++ t.frames
          stt_calls := r.stt_calls + t.stt_calls
          llm_calls := r.llm_calls + t.llm_calls
          closed := r.closed ++ t.closed
          observed := r.observed ++ t.mids ++ [t.state] }

/-- Run a session from the freshly connected state. -/
def run (o : Oracles) (evs : List Event) : RunResult :=
  run_from o evs
    { state := initial_state, frames := [], stt_calls := 0, llm_calls := 0, closed := [],
      observed := [initial_state] }

/-! ### The handler-level chunk counter, across connections

`TelerWebSocketHandler.__init__` sets `self.chunk_counter = 1` once for
the singleton handler; every `_send_*` method of every connection stamps
`chunk_id := self.chunk_counter` and increments it.  `assign_chunk_ids`
models the resulting id assignment for an interleaved sequence of
outbound audio sends, each tagged with its connection id. -/

/-- Stamp each queued send `(connection, payload)` with the shared
counter, incrementing per frame. -/
def assign_chunk_ids (counter : Nat) : List (String × Audio) → List (String × Nat)
  | [] => []
  | (conn, _) :: rest => (conn, counter) :: assign_chunk_ids (counter + 1) rest

/-- All outbound audio frames of the handler process, ids starting from
the initial `chunk_counter = 1`. -/
def handler_send_all (reqs : List (String × Audio)) : List (String × Nat) :=
  assign_chunk_ids 1 reqs

/-! ### Conversation-history shape predicates -/

/-- The history is a sequence of complete `user`/`assistant` pairs. -/
def paired_hist : List Msg → Bool
  | [] => true
  | [_] => false
  | u :: a :: rest => u.role == "user" && a.role == "assistant" && paired_hist rest

/-- The history roles alternate `user, assistant, user, …`, a trailing
unanswered `user` entry allowed. -/
def alt_user_first : List Msg → Bool
  | [] => true
  | [u] => u.role == "user"
  | u :: a :: rest => u.role == "user" && a.role == "assistant" && alt_user_first rest

/-! ### The `/flow` endpoint (`fastapi_app.stream_flow`) -/

/-- `teler.flows.CallFlow.stream`: the stream action descriptor. -/
structure FlowResponse where
  action : String
  ws_url : String
  chunk_size : Nat
  record : Bool
deriving DecidableEq, Repr

/-- `CallFlow.stream(ws_url, chunk_size, record)`. -/
def CallFlow_stream (ws_url : String) (chunk_size : Nat) (record : Bool) : FlowResponse :=
  { action := "stream", ws_url := ws_url, chunk_size := chunk_size, record := record }

/-- An HTTP request body: parsed JSON object fields or form fields. -/
inductive RequestBody where
  | json (fields : List (String × String))
  | form (fields : List (String × String))
deriving DecidableEq, Repr

/-- Field lookup in a parsed body. -/
def body_get (fields : List (String × String)) (k : String) : Option String :=
  ((fields.find? (fun kv => kv.1 == k)).map Prod.snd)

/-- The pydantic `CallFlowRequest` model of `fastapi_app`. -/
structure CallFlowRequest where
  call_id : String
  account_id : String
  from_number : String
  to_number : String
deriving DecidableEq, Repr

/-- FastAPI body validation for `stream_flow`: the body must be JSON (a
form body is rejected) and provide all four required fields, otherwise
the framework answers 422 before the endpoint runs. -/
def parse_call_flow_request : RequestBody → Option CallFlowRequest
  | RequestBody.form _ => none
  | RequestBody.json fields =>
      match body_get fields "call_id", body_get fields "account_id",
            body_get fields "from_number", body_get fields "to_number" with
      | some a, some b, some c, some d =>
          some { call_id := a, account_id := b, from_number := c, to_number := d }
      | _, _, _, _ => none

/-- Outcome of a POST to `/flow`. -/
inductive FlowHttpResult where
  | ok (body : FlowResponse)
  | unprocessable_entity
deriving DecidableEq, Repr

/-- `stream_flow`: on a validated body, return
`CallFlow.stream(ws_url=f"wss://\x7bBACKEND_DOMAIN\x7d/media-stream", chunk_size=500, record=True)`
with status 200.  The scheme is always `wss`. -/
def stream_flow (backend_domain : String) (body : RequestBody) : FlowHttpResult :=
  match parse_call_flow_request body with
  | none => FlowHttpResult.unprocessable_entity
  | some _ =>
      FlowHttpResult.ok
        (CallFlow_stream ("wss://" ++ backend_domain ++ "/media-stream") 500 true)

/-! ### The `/webhook` endpoint (`fastapi_app.webhook_receiver`) -/

/-- A JSON object payload with string field values. -/
abbrev Payload := List (String × String)

/-- `data.get(k)`. -/
def pget (data : Payload) (k : String) : Option String :=
  ((data.find? (fun kv => kv.1 == k)).map Prod.snd)

/-- Python `a or b` over optional strings: `a` unless it is falsy
(`None` or the empty string). -/
def py_str_or (a b : Option String) : Option String :=
  match a with
  | some s => if s == "" then b else some s
  | none => b

/-- `data.get('call_id') or data.get('CallSid') or data.get('id')`. -/
def extract_call_id (data : Payload) : Option String :=
  py_str_or (pget data "call_id") (py_str_or (pget data "CallSid") (pget data "id"))

/-- One entry of the in-memory `call_history`, restricted to the fields
the webhook touches. -/
structure CallRecord where
  call_id : String
  status : String
  webhook_data : Option Payload
  updated_at : Option String
deriving DecidableEq, Repr

/-- The upsert applied to a matching history record:
`webhook_data := data`, `status := data.get('status', old)`,
`updated_at := now`. -/
def apply_webhook (c : CallRecord) (data : Payload) (now : String) : CallRecord :=
  { c with webhook_data := some data, status := (pget data "status").getD c.status,
           updated_at := some now }

/-- The `for … if … break` loop: update the first record whose `call_id`
matches. -/
def update_first (cid : String) (data : Payload) (now : String) :
    List CallRecord → List CallRecord
  | [] => []
  | c :: rest =>
      if c.call_id == cid then apply_webhook c data now :: rest
      else c :: update_first cid data now rest

/-- HTTP response plus the updated history returned by
`webhook_receiver`. -/
structure WebhookResult where
  status_code : Nat
  body : Payload
  history : List CallRecord
deriving DecidableEq, Repr

/-- `webhook_receiver`: extract the call id (falsy ids skip the update),
upsert the first matching record, and answer 200 with
`{"message": "Webhook received successfully"}`. -/
def webhook_receiver (hist : List CallRecord) (data : Payload) (now : String) : WebhookResult :=
  let hist2 := match extract_call_id data with
    | some cid => if cid == "" then hist else update_first cid data now hist
    | none => hist
  { status_code := 200, body := [("message", "Webhook received successfully")],
    history := hist2 }

/-! ### Concrete fixtures used by witnesses and counterexamples -/

/-- A 3-second payload: 48000 bytes of PCM, i.e. exactly 3000 ms. -/
def three_sec_audio : Audio := { len := 48000, tag := "user-speech" }

/-- A short synthesized payload used as every TTS result. -/
def tts_audio : Audio := { len := 3200, tag := "tts" }

/-- Oracles for a happy-path run: VAD hears speech, STT transcribes
"hello there", Claude answers "reply", TTS always succeeds, and no
language switch is requested or detected. -/
def happy_oracles : Oracles where
  vad_has_speech := fun _ => Except.ok true
  vad_filter := fun _ => none
  stt := fun _ _ => Except.ok (some { transcript := "hello there", language := none })
  llm_available := true
  llm := fun _ _ _ => Except.ok (some "reply")
  pick_fallback := fun _ => "canned"
  tts := fun _ _ _ => Except.ok (some tts_audio)
  detect_switch := fun _ => none
  detect_text_lang := fun _ => none

/-- Oracles where VAD, STT, LLM and TTS all raise. -/
def raising_oracles : Oracles where
  vad_has_speech := fun _ => Except.error ()
  vad_filter := fun _ => none
  stt := fun _ _ => Except.error ()
  llm_available := true
  llm := fun _ _ _ => Except.error ()
  pick_fallback := fun _ => "canned"
  tts := fun _ _ _ => Except.error ()
  detect_switch := fun _ => none
  detect_text_lang := fun _ => none

/-- Oracles where VAD reports no speech. -/
def silent_oracles : Oracles where
  vad_has_speech := fun _ => Except.ok false
  vad_filter := fun _ => none
  stt := fun _ _ => Except.ok none
  llm_available := true
  llm := fun _ _ _ => Except.ok (some "reply")
  pick_fallback := fun _ => "canned"
  tts := fun _ _ _ => Except.ok (some tts_audio)
  detect_switch := fun _ => none
  detect_text_lang := fun _ => none

/-- A start frame followed by one 3-second audio frame. -/
def happy_trace : List Event := [Event.start 0, Event.audio three_sec_audio 1]

/-- A session right after the greeting, with 3 s of audio buffered. -/
def buffered_state : SessionState :=
  { initial_state with greeting_sent := true, audio_buffer := [mk_chunk three_sec_audio] }

/-- A session right after the greeting, buffer still empty. -/
def greeted_state : SessionState :=
  { initial_state with greeting_sent := true, monitor_active := true }

/-- A session in which the user has spoken once (at t = 100 s). -/
def spoken_state : SessionState :=
  { initial_state with greeting_sent := true, monitor_active := true,
                       last_user_speech := some 100 }

/-- A session whose silence warnings are exhausted. -/
def exhausted_state : SessionState :=
  { spoken_state with silence_warnings := 2 }

/-- A valid JSON body for `/flow`. -/
def valid_flow_body : RequestBody :=
  RequestBody.json
    [("call_id", "c1"), ("account_id", "a1"), ("from_number", "+911"), ("to_number", "+912")]

/-- The same four fields sent form-encoded. -/
def form_flow_body : RequestBody :=
  RequestBody.form
    [("call_id", "c1"), ("account_id", "a1"), ("from_number", "+911"), ("to_number", "+912")]

/-- A stored call record used by the webhook witnesses. -/
def sample_record : CallRecord :=
  { call_id := "c1", status := "initiated", webhook_data := none, updated_at := none }

/-- A webhook payload carrying a call id and a status. -/
def sample_payload : Payload := [("call_id", "c1"), ("status", "completed")]

end TelerVoice

/-- C5: the meaningful-speech predicate rejects the empty string, the
fillers "so", "uh", "oh" and the short word "hi", and accepts "hello",
"ok go" and "kya haal hai", exactly as the spec enumerates. -/
theorem C5_meaningful_speech_vectors :
    TelerVoice.is_meaningful_speech "" = false ∧
    TelerVoice.is_meaningful_speech "so" = false ∧
    TelerVoice.is_meaningful_speech "uh" = false ∧
    TelerVoice.is_meaningful_speech "oh" = false ∧
    TelerVoice.is_meaningful_speech "hi" = false ∧
    TelerVoice.is_meaningful_speech "hello" = true ∧
    TelerVoice.is_meaningful_speech "ok go" = true ∧
    TelerVoice.is_meaningful_speech "kya haal hai" = true := by
  repeat' constructor <;> decide

namespace TelerVoice

/-- Every id assigned from counter `n` is at least `n`. -/
theorem assign_chunk_ids_lb :
    ∀ (reqs : List (String × Audio)) (n : Nat) (f : String × Nat),
      f ∈ assign_chunk_ids n reqs → n ≤ f.2 := by
  intro reqs
  induction reqs with
  | nil => intro n f hf; simp [assign_chunk_ids] at hf
  | cons hd tl ih =>
      intro n f hf
      obtain ⟨conn, a⟩ := hd
      simp only [assign_chunk_ids, List.mem_cons] at hf
      rcases hf with hf | hf
      · simp [hf]
      · exact Nat.le_of_succ_le (ih (n + 1) f hf)

/-- The assigned ids are strictly increasing along the whole send order. -/
theorem assign_chunk_ids_pairwise :
    ∀ (reqs : List (String × Audio)) (n : Nat),
      List.Pairwise (fun f g => f.2 < g.2) (assign_chunk_ids n reqs) := by
  intro reqs
  induction reqs with
  | nil => intro n; simp [assign_chunk_ids]
  | cons hd tl ih =>
      intro n
      obtain ⟨conn, a⟩ := hd
      refine List.Pairwise.cons ?_ (ih (n + 1))
      intro g hg
      have hlb := assign_chunk_ids_lb tl (n + 1) g hg
      omega

end TelerVoice

/-- C1 (amended): `chunk_id`s are strictly increasing over each session's
outbound stream, and the first frame sent by the whole handler process
carries `chunk_id = 1`; but the counter is the singleton handler's
`self.chunk_counter`, shared by all connections, so a session that starts
sending after other sessions does not restart at 1. -/
theorem C1_session_chunk_ids_increasing (reqs : List (String × TelerVoice.Audio)) (conn : String) :
    List.Pairwise (fun f g => f.2 < g.2)
      ((TelerVoice.handler_send_all reqs).filter (fun f => f.1 == conn)) ∧
    ∀ c a rest, reqs = (c, a) :: rest →
      (TelerVoice.handler_send_all reqs).headD (c, 0) = (c, 1) := by
  constructor
  · exact (TelerVoice.assign_chunk_ids_pairwise reqs 1).filter _
  · intro c a rest h
    subst h
    rfl

/-- Witness for C1 (amended) at a concrete two-session send sequence. -/
theorem C1_session_chunk_ids_increasing_witness :
    List.Pairwise (fun f g => f.2 < g.2)
      ((TelerVoice.handler_send_all
          [("A", TelerVoice.tts_audio), ("B", TelerVoice.tts_audio)]).filter
        (fun f => f.1 == "B")) ∧
    (TelerVoice.handler_send_all
        [("A", TelerVoice.tts_audio), ("B", TelerVoice.tts_audio)]).headD ("A", 0) =
      ("A", 1) := by
  have h := C1_session_chunk_ids_increasing
    [("A", TelerVoice.tts_audio), ("B", TelerVoice.tts_audio)] "B"
  exact ⟨h.1, h.2 "A" TelerVoice.tts_audio [("B", TelerVoice.tts_audio)] rfl⟩

/-- C1 counterexample: with session A sending its greeting before session
B, session B's first outbound frame carries `chunk_id = 2`, not 1 — the
counter is not per-session. -/
theorem C1_counterexample :
    TelerVoice.handler_send_all [("A", TelerVoice.tts_audio), ("B", TelerVoice.tts_audio)] =
      [("A", 1), ("B", 2)] ∧
    ((TelerVoice.handler_send_all
        [("A", TelerVoice.tts_audio), ("B", TelerVoice.tts_audio)]).filter
      (fun f => f.1 == "B")).map Prod.snd = [2] ∧
    (2 : Nat) ≠ 1 := by
  refine ⟨by decide, by decide, by decide⟩

/-- C8 counterexample: with the FastAPI default `BACKEND_DOMAIN`
"localhost:8000" and a valid JSON body, the endpoint answers with a
`wss://` URL (the claimed `ws://` downgrade for localhost does not
exist), and the same fields sent form-encoded are rejected with 422
instead of being answered 200. -/
theorem C8_counterexample :
    TelerVoice.stream_flow "localhost:8000" TelerVoice.valid_flow_body =
      TelerVoice.FlowHttpResult.ok
        { action := "stream", ws_url := "wss://localhost:8000/media-stream",
          chunk_size := 500, record := true } ∧
    "wss://localhost:8000/media-stream" ≠ "ws://localhost:8000/media-stream" ∧
    TelerVoice.stream_flow "localhost:8000" TelerVoice.form_flow_body =
      TelerVoice.FlowHttpResult.unprocessable_entity := by
  refine ⟨by decide, by decide, by decide⟩

/-- C8 (amended): a POST to `/flow` whose JSON body carries `call_id`,
`account_id`, `from_number` and `to_number` is answered 200 with exactly
`{"action": "stream", "ws_url": "wss://<backend_domain>/media-stream",
"chunk_size": 500, "record": true}` — the scheme is always `wss`; any
other body (form-encoded, or JSON missing a required field) is rejected
with 422 by body validation. -/
theorem C8_flow_response (backend_domain : String) (body : TelerVoice.RequestBody) :
    ((TelerVoice.parse_call_flow_request body).isSome = true →
      TelerVoice.stream_flow backend_domain body =
        TelerVoice.FlowHttpResult.ok
          { action := "stream",
            ws_url := "wss://" ++ backend_domain ++ "/media-stream",
            chunk_size := 500, record := true }) ∧
    (TelerVoice.parse_call_flow_request body = none →
      TelerVoice.stream_flow backend_domain body =
        TelerVoice.FlowHttpResult.unprocessable_entity) := by
  constructor
  · intro h
    unfold TelerVoice.stream_flow
    cases hp : TelerVoice.parse_call_flow_request body with
    | none => rw [hp] at h; simp at h
    | some q => simp [TelerVoice.CallFlow_stream]
  · intro h
    unfold TelerVoice.stream_flow
    rw [h]

/-- Witness for C8 (amended) at the default domain: a valid JSON body gets
the 200 stream descriptor, the form-encoded body gets 422. -/
theorem C8_flow_response_witness :
    TelerVoice.stream_flow "localhost:8000" TelerVoice.valid_flow_body =
      TelerVoice.FlowHttpResult.ok
        { action := "stream",
          ws_url := "wss://" ++ "localhost:8000" ++ "/media-stream",
          chunk_size := 500, record := true } ∧
    TelerVoice.stream_flow "localhost:8000" TelerVoice.form_flow_body =
      TelerVoice.FlowHttpResult.unprocessable_entity :=
  ⟨(C8_flow_response "localhost:8000" TelerVoice.valid_flow_body).1 (by decide),
   (C8_flow_response "localhost:8000" TelerVoice.form_flow_body).2 (by decide)⟩

namespace TelerVoice

/-- Updating the first matching record: records before the first match are
untouched, the match gets the webhook upsert, the tail is untouched. -/
theorem update_first_spec (cid : String) (data : Payload) (now : String) :
    ∀ (pre : List CallRecord) (c : CallRecord) (rest : List CallRecord),
      (∀ c2 ∈ pre, c2.call_id ≠ cid) → c.call_id = cid →
      update_first cid data now (pre ++ c :: rest) =
        pre ++ apply_webhook c data now :: rest := by
  intro pre
  induction pre with
  | nil =>
      intro c rest _ hc
      simp [update_first, hc]
  | cons p ps ih =>
      intro c rest hpre hc
      have hp : p.call_id ≠ cid := hpre p (by simp)
      simp only [List.cons_append, update_first]
      rw [if_neg (by simpa using hp)]
      simp only [List.append_eq]
      rw [ih c rest (fun c2 h2 => hpre c2 (by simp [h2])) hc]

end TelerVoice

/-- C9 counterexample: the 200 response body of `/webhook` is
`{"message": "Webhook received successfully"}` — it contains no
`success` key at all, so it does not contain `success: true`. -/
theorem C9_counterexample :
    (TelerVoice.webhook_receiver [TelerVoice.sample_record] TelerVoice.sample_payload
        "2024-01-01T00:00:00").status_code = 200 ∧
    TelerVoice.pget
      (TelerVoice.webhook_receiver [TelerVoice.sample_record] TelerVoice.sample_payload
          "2024-01-01T00:00:00").body "success" = none ∧
    (TelerVoice.webhook_receiver [TelerVoice.sample_record] TelerVoice.sample_payload
        "2024-01-01T00:00:00").body = [("message", "Webhook received successfully")] := by
  refine ⟨by decide, by decide, by decide⟩

/-- C9 (amended): every JSON-object POST to `/webhook` is answered 200
with body `{"message": "Webhook received successfully"}` (no `success`
field); when the payload carries a truthy `call_id` (alias `CallSid` or
`id`) matching a stored record, the first matching record is upserted
with `webhook_data := payload`, `status := payload.status` (keeping the
old status when absent) and a fresh `updated_at`. -/
theorem C9_webhook_response (hist : List TelerVoice.CallRecord)
    (data : TelerVoice.Payload) (now : String) :
    (TelerVoice.webhook_receiver hist data now).status_code = 200 ∧
    (TelerVoice.webhook_receiver hist data now).body =
      [("message", "Webhook received successfully")] ∧
    (∀ cid pre c rest,
      TelerVoice.extract_call_id data = some cid → cid ≠ "" →
      hist = pre ++ c :: rest → (∀ c2 ∈ pre, c2.call_id ≠ cid) → c.call_id = cid →
      (TelerVoice.webhook_receiver hist data now).history =
        pre ++ TelerVoice.apply_webhook c data now :: rest) := by
  refine ⟨rfl, rfl, ?_⟩
  intro cid pre c rest hex hcid hsplit hpre hc
  subst hsplit
  unfold TelerVoice.webhook_receiver
  simp only [hex]
  rw [if_neg (by simpa using hcid)]
  exact TelerVoice.update_first_spec cid data now pre c rest hpre hc

/-- Witness for C9 (amended) at a concrete payload and history: the single
matching record receives the upsert. -/
theorem C9_webhook_response_witness :
    (TelerVoice.webhook_receiver [TelerVoice.sample_record] TelerVoice.sample_payload
        "t1").status_code = 200 ∧
    (TelerVoice.webhook_receiver [TelerVoice.sample_record] TelerVoice.sample_payload
        "t1").body = [("message", "Webhook received successfully")] ∧
    (TelerVoice.webhook_receiver [TelerVoice.sample_record] TelerVoice.sample_payload
        "t1").history =
      [TelerVoice.apply_webhook TelerVoice.sample_record TelerVoice.sample_payload "t1"] := by
  have h := C9_webhook_response [TelerVoice.sample_record] TelerVoice.sample_payload "t1"
  refine ⟨h.1, h.2.1, ?_⟩
  have h3 := h.2.2 "c1" [] TelerVoice.sample_record [] rfl (by decide) rfl (by simp) rfl
  simpa using h3

namespace TelerVoice

/-- `_generate_and_send_ai_response` never touches the audio buffer: the
final state and every intermediate state keep the caller's buffer. -/
theorem gen_send_buffer (s : SessionState) (o : Oracles) (now : Int) (input : String) :
    (generate_and_send_ai_response s o now input).state.audio_buffer = s.audio_buffer ∧
    ∀ st ∈ (generate_and_send_ai_response s o now input).mids,
      st.audio_buffer = s.audio_buffer := by
  unfold generate_and_send_ai_response
  dsimp only
  split
  · simp
  · split
    all_goals
      refine ⟨rfl, ?_⟩
      intro st hst
      simp at hst
      rcases hst with h | h <;> simp [h]

/-- The language-switch confirmation keeps the audio buffer. -/
theorem switch_conf_buffer (s : SessionState) (o : Oracles) (now : Int) (l : String) :
    (send_language_switch_confirmation s o now l).1.audio_buffer = s.audio_buffer := by
  unfold send_language_switch_confirmation
  split <;> rfl

/-- Auto language detection only touches the language fields. -/
theorem apply_text_lang_fields (s : SessionState) (dl : Option String) (lang : String) :
    (apply_text_lang_detection s dl lang).audio_buffer = s.audio_buffer ∧
    (apply_text_lang_detection s dl lang).conversation_history = s.conversation_history := by
  unfold apply_text_lang_detection
  split
  · split <;> simp
  · simp

/-- The meaningful-turn tail keeps the audio buffer, in the final state
and at every intermediate state. -/
theorem run_user_turn_buffer (s2 : SessionState) (o : Oracles) (now : Int) (t lang : String) :
    (run_user_turn s2 o now t lang).state.audio_buffer = s2.audio_buffer ∧
    ∀ st ∈ (run_user_turn s2 o now t lang).mids, st.audio_buffer = s2.audio_buffer := by
  unfold run_user_turn
  dsimp only
  constructor
  · rw [show (∀ g : TurnOut, ({ g.state with monitor_active := true } : SessionState).audio_buffer
        = g.state.audio_buffer) from fun g => rfl]
    rw [(gen_send_buffer _ o now t).1]
    exact (apply_text_lang_fields s2 (o.detect_text_lang t) lang).1
  · intro st hst
    rcases List.mem_cons.mp hst with h | h
    · simp [h]
    · have h2 := (gen_send_buffer _ o now t).2 st h
      rw [h2]
      exact (apply_text_lang_fields s2 (o.detect_text_lang t) lang).1

/-- Every run of the turn pipeline either makes no STT call, or leaves the
audio buffer empty in the final state and at every suspension point. -/
theorem process_cases (s : SessionState) (o : Oracles) (now : Int) :
    (process_accumulated_audio s o now).stt_calls = 0 ∨
    ((process_accumulated_audio s o now).state.audio_buffer = [] ∧
     ∀ st ∈ (process_accumulated_audio s o now).mids, st.audio_buffer = []) := by
  unfold process_accumulated_audio
  dsimp only
  split
  · left; rfl
  · split
    · left; rfl
    · split
      · left; rfl
      · split
        · left; rfl
        · left; rfl
        · split
          · right
            refine ⟨rfl, ?_⟩
            intro st hst
            simp at hst
            simp [hst]
          · split
            · right
              refine ⟨rfl, ?_⟩
              intro st hst
              simp at hst
              simp [hst]
            · split
              · right
                refine ⟨?_, ?_⟩
                · exact switch_conf_buffer _ o now _
                · intro st hst
                  simp at hst
                  rcases hst with h | h <;> simp [h]
              · right
                refine ⟨?_, ?_⟩
                · exact (run_user_turn_buffer _ o now _ _).1
                · intro st hst
                  exact (run_user_turn_buffer _ o now _ _).2 st hst

end TelerVoice

/-- C10: an invocation of `_process_accumulated_audio` that enters (the
session is not already processing) always completes with
`is_processing = false`, whatever the oracles do — including VAD, STT,
LLM or TTS raising — because the reset sits in the `finally` block. -/
theorem C10_processing_always_reset (s : TelerVoice.SessionState) (o : TelerVoice.Oracles)
    (now : Int) (hp : s.is_processing = false) :
    (TelerVoice.process_accumulated_audio s o now).state.is_processing = false := by
  unfold TelerVoice.process_accumulated_audio
  split
  · simpa [TelerVoice.pure_out] using hp
  · split
    · simpa [TelerVoice.pure_out] using hp
    · dsimp only
      split
      · rfl
      · split
        · rfl
        · rfl
        · split
          · rfl
          · split
            · rfl
            · split
              · rfl
              · rfl

/-- Witness for C10: a buffered session processed with oracles in which
VAD, STT, LLM and TTS all raise still ends with `is_processing = false`. -/
theorem C10_processing_always_reset_witness :
    (TelerVoice.process_accumulated_audio TelerVoice.buffered_state TelerVoice.raising_oracles
        5).state.is_processing = false :=
  C10_processing_always_reset TelerVoice.buffered_state TelerVoice.raising_oracles 5 rfl

/-- C6: a drained buffer on which VAD reports no speech triggers no STT
call, no LLM call and no outbound frame; the history, language fields and
`waiting_for_user` are unchanged (so still true) and the buffer is left
cleared. -/
theorem C6_vad_gate_skips_pipeline (s : TelerVoice.SessionState) (o : TelerVoice.Oracles)
    (now : Int)
    (hw : s.waiting_for_user = true) (hp : s.is_processing = false)
    (hc : s.call_ended = false) (hb : ¬ s.audio_buffer = [])
    (hv : o.vad_has_speech (TelerVoice.combine_audio_chunks s.audio_buffer) =
      Except.ok false) :
    (TelerVoice.process_accumulated_audio s o now).stt_calls = 0 ∧
    (TelerVoice.process_accumulated_audio s o now).llm_calls = 0 ∧
    (TelerVoice.process_accumulated_audio s o now).frames = [] ∧
    (TelerVoice.process_accumulated_audio s o now).state.conversation_history =
      s.conversation_history ∧
    (TelerVoice.process_accumulated_audio s o now).state.current_language =
      s.current_language ∧
    (TelerVoice.process_accumulated_audio s o now).state.detected_language =
      s.detected_language ∧
    (TelerVoice.process_accumulated_audio s o now).state.audio_buffer = [] ∧
    (TelerVoice.process_accumulated_audio s o now).state.waiting_for_user = true := by
  simp only [TelerVoice.process_accumulated_audio, hc, hp, hb]
  simp only [if_neg hb, hv]
  simp [TelerVoice.pure_out, hw]

/-- Witness for C6: the buffered session processed under a no-speech VAD
verdict. -/
theorem C6_vad_gate_skips_pipeline_witness :
    (TelerVoice.process_accumulated_audio TelerVoice.buffered_state TelerVoice.silent_oracles
        5).stt_calls = 0 ∧
    (TelerVoice.process_accumulated_audio TelerVoice.buffered_state TelerVoice.silent_oracles
        5).llm_calls = 0 ∧
    (TelerVoice.process_accumulated_audio TelerVoice.buffered_state TelerVoice.silent_oracles
        5).frames = [] ∧
    (TelerVoice.process_accumulated_audio TelerVoice.buffered_state TelerVoice.silent_oracles
        5).state.conversation_history = TelerVoice.buffered_state.conversation_history ∧
    (TelerVoice.process_accumulated_audio TelerVoice.buffered_state TelerVoice.silent_oracles
        5).state.current_language = TelerVoice.buffered_state.current_language ∧
    (TelerVoice.process_accumulated_audio TelerVoice.buffered_state TelerVoice.silent_oracles
        5).state.detected_language = TelerVoice.buffered_state.detected_language ∧
    (TelerVoice.process_accumulated_audio TelerVoice.buffered_state TelerVoice.silent_oracles
        5).state.audio_buffer = [] ∧
    (TelerVoice.process_accumulated_audio TelerVoice.buffered_state TelerVoice.silent_oracles
        5).state.waiting_for_user = true :=
  C6_vad_gate_skips_pipeline TelerVoice.buffered_state TelerVoice.silent_oracles 5
    rfl rfl rfl (by decide) rfl

/-- C7: the buffer is drained into the STT pipeline only when the session
is waiting for the user, not processing, and at least 3000 ms
(48000 sixteenth-ms, i.e. 48000 PCM bytes) have accumulated including
the arriving chunk; and whenever STT is reached, the audio buffer is
empty — at every suspension point of the turn and in the final state. -/
theorem C7_accumulation_gate (s : TelerVoice.SessionState) (o : TelerVoice.Oracles)
    (a : TelerVoice.Audio) (now : Int)
    (h : (TelerVoice.handle_audio_message s o a now).stt_calls ≥ 1) :
    s.waiting_for_user = true ∧ s.is_processing = false ∧
    TelerVoice.accumulated_duration_x16 (s.audio_buffer ++ [TelerVoice.mk_chunk a]) ≥ 48000 ∧
    (TelerVoice.handle_audio_message s o a now).state.audio_buffer = [] ∧
    ∀ st ∈ (TelerVoice.handle_audio_message s o a now).mids, st.audio_buffer = [] := by
  unfold TelerVoice.handle_audio_message at h ⊢
  by_cases hce : s.call_ended = true
  · rw [if_pos hce] at h
    simp [TelerVoice.pure_out] at h
  · rw [if_neg hce] at h ⊢
    by_cases hlen : (a.len == 0) = true
    · rw [if_pos hlen] at h
      simp [TelerVoice.pure_out] at h
    · rw [if_neg hlen] at h ⊢
      dsimp only at h ⊢
      by_cases hgate : (s.waiting_for_user && !s.is_processing) = true
      · rw [if_pos hgate] at h ⊢
        by_cases hacc : TelerVoice.accumulated_duration_x16
            (s.audio_buffer ++ [TelerVoice.mk_chunk a]) ≥ 48000
        · rw [if_pos hacc] at h ⊢
          obtain ⟨hw, hnp⟩ := Bool.and_eq_true_iff.mp hgate
          refine ⟨hw, by simpa using hnp, hacc, ?_⟩
          rcases TelerVoice.process_cases
              { s with audio_buffer := s.audio_buffer ++ [TelerVoice.mk_chunk a] } o now
            with h0 | hres
          · rw [h0] at h
            omega
          · exact hres
        · rw [if_neg hacc] at h
          simp [TelerVoice.pure_out] at h
      · rw [if_neg hgate] at h
        simp [TelerVoice.pure_out] at h

/-- Witness for C7: a greeted session receiving one 3-second chunk runs
STT and leaves the buffer empty; the gate conditions held. -/
theorem C7_accumulation_gate_witness :
    TelerVoice.greeted_state.waiting_for_user = true ∧
    TelerVoice.greeted_state.is_processing = false ∧
    TelerVoice.accumulated_duration_x16
      (TelerVoice.greeted_state.audio_buffer ++ [TelerVoice.mk_chunk TelerVoice.three_sec_audio])
      ≥ 48000 ∧
    (TelerVoice.handle_audio_message TelerVoice.greeted_state TelerVoice.happy_oracles
        TelerVoice.three_sec_audio 1).state.audio_buffer = [] := by
  have h := C7_accumulation_gate TelerVoice.greeted_state TelerVoice.happy_oracles
    TelerVoice.three_sec_audio 1 (by decide)
  exact ⟨h.1, h.2.1, h.2.2.1, h.2.2.2.1⟩

/-- C4 counterexample: on the happy-path run, at the STT suspension point
the session is observed with `is_processing = true` while
`waiting_for_user` is still true — `waiting_for_user` is only set false
later, after a meaningful transcript arrives — so
`is_processing ⇒ ¬waiting_for_user` fails on a reachable state. -/
theorem C4_counterexample :
    ((TelerVoice.run TelerVoice.happy_oracles TelerVoice.happy_trace).observed.any
      (fun st => st.is_processing && st.waiting_for_user)) = true := by
  decide

/-- C4 (amended): `is_processing` does not force `waiting_for_user` to be
false; instead re-entry is prevented by the gate itself — while
`is_processing = true`, an inbound audio frame only appends its chunk to
the buffer and triggers no pipeline, no service call and no outbound
frame. -/
theorem C4_no_reentry_while_processing (s : TelerVoice.SessionState) (o : TelerVoice.Oracles)
    (a : TelerVoice.Audio) (now : Int)
    (hp : s.is_processing = true) (hl : ¬ a.len = 0) (hc : s.call_ended = false) :
    TelerVoice.handle_audio_message s o a now =
      TelerVoice.pure_out
        { s with audio_buffer := s.audio_buffer ++ [TelerVoice.mk_chunk a] } := by
  simp [TelerVoice.handle_audio_message, hc, hl, hp]

/-- Witness for C4 (amended): a processing session receiving a chunk. -/
theorem C4_no_reentry_while_processing_witness :
    TelerVoice.handle_audio_message
        { TelerVoice.greeted_state with is_processing := true } TelerVoice.happy_oracles
        TelerVoice.three_sec_audio 1 =
      TelerVoice.pure_out
        { { TelerVoice.greeted_state with is_processing := true } with
          audio_buffer := { TelerVoice.greeted_state with is_processing := true }.audio_buffer
            ++ [TelerVoice.mk_chunk TelerVoice.three_sec_audio] } :=
  C4_no_reentry_while_processing
    { TelerVoice.greeted_state with is_processing := true } TelerVoice.happy_oracles
    TelerVoice.three_sec_audio 1 rfl (by decide) rfl

/-- C3 counterexample: after the greeting, with no user speech ever, a
silence-monitor tick fires long past 30 s and does nothing — no prompt
frame, `silence_warnings` stays 0, no close — because `_monitor_silence`
skips every tick while `last_user_speech` is unset. -/
theorem C3_counterexample :
    (TelerVoice.run TelerVoice.happy_oracles
        [TelerVoice.Event.start 0, TelerVoice.Event.tick 1000]).state.greeting_sent = true ∧
    (TelerVoice.run TelerVoice.happy_oracles
        [TelerVoice.Event.start 0, TelerVoice.Event.tick 1000]).state.last_user_speech =
      none ∧
    (TelerVoice.run TelerVoice.happy_oracles
        [TelerVoice.Event.start 0, TelerVoice.Event.tick 1000]).state.silence_warnings = 0 ∧
    (TelerVoice.run TelerVoice.happy_oracles
        [TelerVoice.Event.start 0, TelerVoice.Event.tick 1000]).frames.length = 1 ∧
    (TelerVoice.run TelerVoice.happy_oracles
        [TelerVoice.Event.start 0, TelerVoice.Event.tick 1000]).closed = [] := by
  refine ⟨by decide, by decide, by decide, by decide, by decide⟩

/-- C3 (amended): the silence watchdog acts only once `last_user_speech`
has been set by a first meaningful user utterance (until then every tick
is a no-op); from then on, a tick 30 s after the last user speech sends a
silence prompt and increments `silence_warnings` while it is below
`max_silence_warnings` (2), and once the warnings are exhausted the next
such tick sends the farewell and closes the WebSocket with code 1000 and
reason "Call ended due to inactivity". -/
theorem C3_silence_watchdog (s : TelerVoice.SessionState) (o : TelerVoice.Oracles)
    (now t0 : Int) (aud : TelerVoice.Audio)
    (htts : ∀ txt lang sp, o.tts txt lang sp = Except.ok (some aud))
    (hc : s.call_ended = false) :
    (s.last_user_speech = none →
      TelerVoice.monitor_silence_tick s o now = TelerVoice.pure_out s) ∧
    (s.last_user_speech = some t0 → now - t0 ≥ 30 →
      ((s.silence_warnings < s.max_silence_warnings →
          (TelerVoice.monitor_silence_tick s o now).state.silence_warnings =
            s.silence_warnings + 1 ∧
          (TelerVoice.monitor_silence_tick s o now).frames =
            [TelerVoice.Frame.audio aud s.chunk_counter] ∧
          (TelerVoice.monitor_silence_tick s o now).closed = [] ∧
          (TelerVoice.monitor_silence_tick s o now).state.call_ended = false) ∧
       (¬ s.silence_warnings < s.max_silence_warnings →
          (TelerVoice.monitor_silence_tick s o now).state.call_ended = true ∧
          (TelerVoice.monitor_silence_tick s o now).closed =
            [(1000, "Call ended due to inactivity")] ∧
          (TelerVoice.monitor_silence_tick s o now).frames =
            [TelerVoice.Frame.audio aud s.chunk_counter]))) := by
  constructor
  · intro hn
    unfold TelerVoice.monitor_silence_tick
    simp [hc, hn]
  · intro hsp h30
    constructor
    · intro hlt
      unfold TelerVoice.monitor_silence_tick
      simp only [hc, hsp, Bool.false_eq_true, if_false]
      rw [if_pos h30, if_pos hlt]
      unfold TelerVoice.send_silence_warning
      dsimp only
      rw [htts]
      dsimp [TelerVoice.send_audio_frame]
      exact ⟨rfl, rfl, rfl, hc⟩
    · intro hge
      unfold TelerVoice.monitor_silence_tick
      simp only [hc, hsp, Bool.false_eq_true, if_false]
      rw [if_pos h30, if_neg hge]
      unfold TelerVoice.end_call_gracefully
      dsimp only
      rw [htts]
      dsimp [TelerVoice.send_audio_frame]
      exact ⟨rfl, rfl, rfl⟩

/-- Witness for C3 (amended): a no-speech tick is a no-op; after speech at
t = 100, a tick at t = 200 warns and increments; with warnings exhausted
the tick closes 1000/"Call ended due to inactivity". -/
theorem C3_silence_watchdog_witness :
    TelerVoice.monitor_silence_tick TelerVoice.greeted_state TelerVoice.happy_oracles 500 =
      TelerVoice.pure_out TelerVoice.greeted_state ∧
    (TelerVoice.monitor_silence_tick TelerVoice.spoken_state TelerVoice.happy_oracles
        200).state.silence_warnings = 1 ∧
    (TelerVoice.monitor_silence_tick TelerVoice.spoken_state TelerVoice.happy_oracles
        200).closed = [] ∧
    (TelerVoice.monitor_silence_tick TelerVoice.exhausted_state TelerVoice.happy_oracles
        200).state.call_ended = true ∧
    (TelerVoice.monitor_silence_tick TelerVoice.exhausted_state TelerVoice.happy_oracles
        200).closed = [(1000, "Call ended due to inactivity")] := by
  have h1 := C3_silence_watchdog TelerVoice.greeted_state TelerVoice.happy_oracles 500 0
    TelerVoice.tts_audio (fun _ _ _ => rfl) rfl
  have h2 := C3_silence_watchdog TelerVoice.spoken_state TelerVoice.happy_oracles 200 100
    TelerVoice.tts_audio (fun _ _ _ => rfl) rfl
  have h3 := C3_silence_watchdog TelerVoice.exhausted_state TelerVoice.happy_oracles 200 100
    TelerVoice.tts_audio (fun _ _ _ => rfl) rfl
  refine ⟨h1.1 rfl, ?_, ?_, ?_, ?_⟩
  · exact ((h2.2 rfl (by decide)).1 (by decide)).1
  · exact ((h2.2 rfl (by decide)).1 (by decide)).2.2.1
  · exact ((h3.2 rfl (by decide)).2 (by decide)).1
  · exact ((h3.2 rfl (by decide)).2 (by decide)).2.1

namespace TelerVoice

/-- The roles in a history of complete pairs alternate starting at
`user`. -/
theorem alt_of_paired : ∀ l : List Msg, paired_hist l = true → alt_user_first l = true
  | [], _ => rfl
  | [m], h => by simp [paired_hist] at h
  | u :: a :: rest, h => by
      simp only [paired_hist, Bool.and_eq_true] at h
      simp only [alt_user_first, Bool.and_eq_true]
      exact ⟨h.1, alt_of_paired rest h.2⟩

/-- In an alternating history the first entry is a `user` entry. -/
theorem alt_head_role : ∀ (m : Msg) (l : List Msg),
    alt_user_first (m :: l) = true → m.role = "user"
  | m, [], h => by
      simp only [alt_user_first] at h
      exact beq_iff_eq.mp h
  | m, b :: l, h => by
      simp only [alt_user_first, Bool.and_eq_true] at h
      exact beq_iff_eq.mp h.1.1

/-- An alternating history has pairwise-distinct consecutive roles. -/
theorem alt_chain : ∀ l : List Msg, alt_user_first l = true →
    List.Chain' (fun x y : Msg => x.role ≠ y.role) l
  | [], _ => List.chain'_nil
  | [m], _ => List.chain'_singleton m
  | u :: a :: rest, h => by
      simp only [alt_user_first, Bool.and_eq_true] at h
      obtain ⟨⟨hu, ha⟩, hrest⟩ := h
      have hu2 : u.role = "user" := beq_iff_eq.mp hu
      have ha2 : a.role = "assistant" := beq_iff_eq.mp ha
      have hchain : List.Chain' (fun x y : Msg => x.role ≠ y.role) (a :: rest) := by
        cases rest with
        | nil => exact List.chain'_singleton a
        | cons b rest2 =>
            have hrec := alt_chain (b :: rest2) hrest
            have hb : b.role = "user" := alt_head_role b rest2 hrest
            exact List.chain'_cons.mpr ⟨by rw [ha2, hb]; decide, hrec⟩
      exact List.chain'_cons.mpr ⟨by rw [hu2, ha2]; decide, hchain⟩

/-- Appending a `user`/`assistant` pair keeps the history fully paired. -/
theorem paired_append_pair : ∀ (l : List Msg) (t r : String), paired_hist l = true →
    paired_hist (l ++ [{ role := "user", content := t },
      { role := "assistant", content := r }]) = true
  | [], t, r, _ => by simp [paired_hist]
  | [m], _, _, h => by simp [paired_hist] at h
  | u :: a :: rest, t, r, h => by
      simp only [paired_hist, Bool.and_eq_true] at h
      simp only [List.cons_append, paired_hist, Bool.and_eq_true]
      exact ⟨h.1, paired_append_pair rest t r h.2⟩

/-- Appending a dangling `user` entry to a paired history keeps the roles
alternating. -/
theorem alt_append_user : ∀ (l : List Msg) (t : String), paired_hist l = true →
    alt_user_first (l ++ [{ role := "user", content := t }]) = true
  | [], t, _ => by simp [alt_user_first]
  | [m], _, h => by simp [paired_hist] at h
  | u :: a :: rest, t, h => by
      simp only [paired_hist, Bool.and_eq_true] at h
      simp only [List.cons_append, alt_user_first, Bool.and_eq_true]
      exact ⟨h.1, alt_append_user rest t h.2⟩

/-- With a non-empty history, `_generate_ai_response` never lets an
exception escape: it always produces a reply value. -/
theorem gen_ai_ok (o : Oracles) (hist : List Msg) (lang input : String) (hne : hist ≠ []) :
    ∃ r, (generate_ai_response o hist lang input).1 = Except.ok r := by
  unfold generate_ai_response
  split
  · exact ⟨_, rfl⟩
  · split
    all_goals exact ⟨_, rfl⟩

/-- `_generate_and_send_ai_response` appends exactly one `assistant` entry
to a non-empty history; the intermediate states carry either the caller's
history or the history with that entry already appended. -/
theorem gen_send_hist (s : SessionState) (o : Oracles) (now : Int) (input : String)
    (hne : s.conversation_history ≠ []) :
    (∃ x, (generate_and_send_ai_response s o now input).state.conversation_history =
      s.conversation_history ++ [{ role := "assistant", content := x }]) ∧
    ∀ st ∈ (generate_and_send_ai_response s o now input).mids,
      st.conversation_history = s.conversation_history ∨
      ∃ x, st.conversation_history =
        s.conversation_history ++ [{ role := "assistant", content := x }] := by
  obtain ⟨r0, hr0⟩ := gen_ai_ok o s.conversation_history s.current_language input hne
  unfold generate_and_send_ai_response
  dsimp only
  rw [hr0]
  dsimp only
  split
  all_goals
    refine ⟨⟨_, rfl⟩, ?_⟩
    intro st hst
    simp at hst
    rcases hst with h | h
    · subst h; exact Or.inl rfl
    · subst h; exact Or.inr ⟨_, rfl⟩

/-- The language-switch confirmation does not touch the history. -/
theorem switch_conf_hist (s : SessionState) (o : Oracles) (now : Int) (l : String) :
    (send_language_switch_confirmation s o now l).1.conversation_history =
      s.conversation_history := by
  unfold send_language_switch_confirmation
  split <;> rfl

/-- Pairedness survives the language-switch confirmation. -/
theorem switch_conf_paired (s3 : SessionState) (o : Oracles) (now : Int) (l : String)
    (h : paired_hist s3.conversation_history = true) :
    paired_hist (send_language_switch_confirmation s3 o now l).1.conversation_history
      = true := by
  rw [switch_conf_hist]
  exact h

/-- Running `_generate_and_send_ai_response` on a history that is a paired
base plus one dangling `user` entry yields a paired history, and every
intermediate state has alternating roles. -/
theorem gen_send_after_user (s5 : SessionState) (o : Oracles) (now : Int) (input : String)
    (base : List Msg) (t : String)
    (hb : paired_hist base = true)
    (h5 : s5.conversation_history = base ++ [{ role := "user", content := t }]) :
    paired_hist (generate_and_send_ai_response s5 o now input).state.conversation_history
      = true ∧
    ∀ st ∈ (generate_and_send_ai_response s5 o now input).mids,
      alt_user_first st.conversation_history = true := by
  have hne : s5.conversation_history ≠ [] := by simp [h5]
  have hg := gen_send_hist s5 o now input hne
  constructor
  · obtain ⟨x, hx⟩ := hg.1
    rw [hx, h5, List.append_assoc]
    exact paired_append_pair base t x hb
  · intro st hst
    rcases hg.2 st hst with hmid | ⟨x, hx⟩
    · rw [hmid, h5]
      exact alt_append_user base t hb
    · rw [hx, h5, List.append_assoc]
      exact alt_of_paired _ (paired_append_pair base t x hb)

/-- The meaningful-turn tail preserves pairedness of the history and keeps
all intermediate states alternating. -/
theorem run_user_turn_hist (s2 : SessionState) (o : Oracles) (now : Int) (t lang : String)
    (h : paired_hist s2.conversation_history = true) :
    paired_hist (run_user_turn s2 o now t lang).state.conversation_history = true ∧
    ∀ st ∈ (run_user_turn s2 o now t lang).mids,
      alt_user_first st.conversation_history = true := by
  unfold run_user_turn
  dsimp only
  have h3 := (apply_text_lang_fields s2 (o.detect_text_lang t) lang).2
  constructor
  · exact (gen_send_after_user _ o now t s2.conversation_history t h
      (by dsimp only; rw [h3])).1
  · intro st hst
    rcases List.mem_cons.mp hst with hs | hs
    · subst hs
      exact alt_of_paired _ h
    · exact (gen_send_after_user _ o now t s2.conversation_history t h
        (by dsimp only; rw [h3])).2 st hs

/-- The whole turn pipeline preserves pairedness of the history, and every
state it exposes at a suspension point has alternating roles. -/
theorem process_hist (s : SessionState) (o : Oracles) (now : Int)
    (h : paired_hist s.conversation_history = true) :
    paired_hist (process_accumulated_audio s o now).state.conversation_history = true ∧
    ∀ st ∈ (process_accumulated_audio s o now).mids,
      alt_user_first st.conversation_history = true := by
  unfold process_accumulated_audio
  dsimp only
  split
  · exact ⟨h, by simp [pure_out]⟩
  · split
    · exact ⟨h, by simp [pure_out]⟩
    · split
      · exact ⟨h, by simp [pure_out]⟩
      · split
        · exact ⟨h, by simp [pure_out]⟩
        · exact ⟨h, by simp [pure_out]⟩
        · split
          · refine ⟨h, ?_⟩
            intro st hst
            simp at hst
            subst hst
            exact alt_of_paired _ h
          · split
            · refine ⟨h, ?_⟩
              intro st hst
              simp at hst
              subst hst
              exact alt_of_paired _ h
            · split
              · refine ⟨switch_conf_paired _ o now _ h, ?_⟩
                intro st hst
                simp at hst
                rcases hst with h1 | h1
                all_goals subst h1
                all_goals exact alt_of_paired _ h
              · constructor
                · exact (run_user_turn_hist
                    { s with is_processing := true, audio_buffer := [] } o now _ _ h).1
                · intro st hst
                  exact (run_user_turn_hist
                    { s with is_processing := true, audio_buffer := [] } o now _ _ h).2 st hst

/-- The greeting never touches the history. -/
theorem greet_hist (s : SessionState) (o : Oracles) (now : Int) :
    (send_initial_greeting s o now).1.conversation_history = s.conversation_history := by
  unfold send_initial_greeting
  split
  · rfl
  · dsimp only
    split <;> rfl

/-- A completed silence warning never touches the history. -/
theorem warn_hist (s : SessionState) (o : Oracles) (n : Nat) (sw : SessionState × List Frame)
    (h : send_silence_warning s o n = Except.ok sw) :
    sw.1.conversation_history = s.conversation_history := by
  unfold send_silence_warning at h
  dsimp only at h
  split at h
  · simp at h
  · injection h with h2
    subst h2
    rfl
  · injection h with h2
    subst h2
    rfl

/-- Graceful call ending never touches the history. -/
theorem endcall_hist (s : SessionState) (o : Oracles) :
    (end_call_gracefully s o).state.conversation_history = s.conversation_history ∧
    ∀ st ∈ (end_call_gracefully s o).mids,
      st.conversation_history = s.conversation_history := by
  unfold end_call_gracefully
  dsimp only
  split
  · exact ⟨rfl, by simp [pure_out]⟩
  · exact ⟨rfl, by simp⟩
  · refine ⟨rfl, ?_⟩
    intro st hst
    simp at hst
    subst hst
    rfl

/-- A silence-monitor tick never touches the history. -/
theorem tick_hist (s : SessionState) (o : Oracles) (now : Int) :
    (monitor_silence_tick s o now).state.conversation_history = s.conversation_history ∧
    ∀ st ∈ (monitor_silence_tick s o now).mids,
      st.conversation_history = s.conversation_history := by
  unfold monitor_silence_tick
  dsimp only
  split
  · exact ⟨rfl, by simp [pure_out]⟩
  · split
    · exact ⟨rfl, by simp [pure_out]⟩
    · split
      · split
        · split
          · exact ⟨rfl, by simp [pure_out]⟩
          · rename_i sw heq
            exact ⟨warn_hist _ o _ sw heq, by simp⟩
        · exact endcall_hist s o
      · exact ⟨rfl, by simp [pure_out]⟩

/-- One step from a paired history yields a paired history, and every
state exposed inside the step has alternating roles. -/
theorem step_hist (s : SessionState) (o : Oracles) (e : Event)
    (h : paired_hist s.conversation_history = true) :
    paired_hist (step s o e).state.conversation_history = true ∧
    ∀ st ∈ (step s o e).mids, alt_user_first st.conversation_history = true := by
  cases e with
  | start now =>
      simp only [step]
      split
      · exact ⟨h, by simp [pure_out]⟩
      · unfold handle_start_message
        dsimp only
        split
        · refine ⟨?_, ?_⟩
          · rw [show (∀ g : SessionState × List Frame × Bool,
                ({ g.1 with monitor_active := true } : SessionState).conversation_history
                  = g.1.conversation_history) from fun g => rfl]
            rw [greet_hist]
            exact h
          · intro st hst
            simp at hst
            subst hst
            exact alt_of_paired _ h
        · refine ⟨?_, ?_⟩
          · rw [greet_hist]
            exact h
          · intro st hst
            simp at hst
            subst hst
            exact alt_of_paired _ h
  | audio a now =>
      simp only [step]
      split
      · exact ⟨h, by simp [pure_out]⟩
      · unfold handle_audio_message
        split
        · exact ⟨h, by simp [pure_out]⟩
        · split
          · exact ⟨h, by simp [pure_out]⟩
          · dsimp only
            split
            · split
              · constructor
                · exact (process_hist
                    { s with audio_buffer := s.audio_buffer ++ [mk_chunk a] } o now h).1
                · intro st hst
                  exact (process_hist
                    { s with audio_buffer := s.audio_buffer ++ [mk_chunk a] } o now h).2 st hst
              · exact ⟨h, by simp [pure_out]⟩
            · exact ⟨h, by simp [pure_out]⟩
  | tick now =>
      simp only [step]
      split
      · refine ⟨?_, ?_⟩
        · rw [(tick_hist s o now).1]
          exact h
        · intro st hst
          rw [(tick_hist s o now).2 st hst]
          exact alt_of_paired _ h
      · exact ⟨h, by simp [pure_out]⟩

/-- The run invariant: from a paired final history and alternating
observed histories, folding any further events preserves both. -/
theorem run_from_hist (o : Oracles) :
    ∀ (evs : List Event) (r : RunResult),
      paired_hist r.state.conversation_history = true →
      (∀ st ∈ r.observed, alt_user_first st.conversation_history = true) →
      paired_hist (run_from o evs r).state.conversation_history = true ∧
      ∀ st ∈ (run_from o evs r).observed, alt_user_first st.conversation_history = true := by
  intro evs
  induction evs with
  | nil => intro r h1 h2; exact ⟨h1, h2⟩
  | cons e rest ih =>
      intro r h1 h2
      have hs := step_hist r.state o e h1
      apply ih
      · exact hs.1
      · intro st hst
        simp only [List.mem_append] at hst
        rcases hst with (hst | hst) | hst
        · exact h2 st hst
        · exact hs.2 st hst
        · simp only [List.mem_singleton] at hst
          subst hst
          exact alt_of_paired _ hs.1

end TelerVoice

/-- C2 counterexample: on the happy-path run the greeting frame is sent
(two outbound frames in total) yet the final conversation history is
`[user, assistant]` — its first entry has role "user", not "assistant":
`_send_initial_greeting` never appends the greeting to the history. -/
theorem C2_counterexample :
    (TelerVoice.run TelerVoice.happy_oracles TelerVoice.happy_trace).frames.length = 2 ∧
    (TelerVoice.run TelerVoice.happy_oracles TelerVoice.happy_trace).state.greeting_sent
      = true ∧
    (TelerVoice.run TelerVoice.happy_oracles
        TelerVoice.happy_trace).state.conversation_history =
      [{ role := "user", content := "hello there" },
       { role := "assistant", content := "reply" }] ∧
    ({ role := "user", content := "hello there" } : TelerVoice.Msg).role ≠ "assistant" := by
  refine ⟨by decide, by decide, by decide, by decide⟩

/-- C2 (amended): at every observable point of every session run,
consecutive entries of `conversation_history` have different roles, and
the first entry, when the history is non-empty, has role "user" — not
"assistant": the greeting is sent as audio but never recorded in the
history, so the history starts with the first user utterance. -/
theorem C2_history_alternates (o : TelerVoice.Oracles) (evs : List TelerVoice.Event) :
    ∀ st ∈ (TelerVoice.run o evs).observed,
      List.Chain' (fun x y : TelerVoice.Msg => x.role ≠ y.role) st.conversation_history ∧
      (st.conversation_history ≠ [] →
        (st.conversation_history.headD { role := "", content := "" }).role = "user") := by
  intro st hst
  have hrun := TelerVoice.run_from_hist o evs
    { state := TelerVoice.initial_state, frames := [], stt_calls := 0, llm_calls := 0,
      closed := [], observed := [TelerVoice.initial_state] }
    (by decide) (by intro st2 hst2; simp at hst2; subst hst2; decide)
  have halt := hrun.2 st hst
  constructor
  · exact TelerVoice.alt_chain _ halt
  · intro hne
    cases hh : st.conversation_history with
    | nil => exact absurd hh hne
    | cons m l =>
        rw [hh] at halt
        simpa using TelerVoice.alt_head_role m l halt

/-- Witness for C2 (amended): the final state of the happy-path run has an
alternating history whose head has role "user". -/
theorem C2_history_alternates_witness :
    List.Chain' (fun x y : TelerVoice.Msg => x.role ≠ y.role)
      ((TelerVoice.run TelerVoice.happy_oracles
          TelerVoice.happy_trace).state.conversation_history) ∧
    (((TelerVoice.run TelerVoice.happy_oracles
          TelerVoice.happy_trace).state.conversation_history).headD
        { role := "", content := "" }).role = "user" := by
  have h := C2_history_alternates TelerVoice.happy_oracles TelerVoice.happy_trace
    ((TelerVoice.run TelerVoice.happy_oracles TelerVoice.happy_trace).state) (by decide)
  exact ⟨h.1, h.2 (by decide)⟩
